import Mathlib

/-!
Verification of `influx_logging/handler.py` (Teamworksapp/influxdb_logging).

The development shallowly embeds the record-to-point converter
(`InfluxHandler.get_points`), the immediate emitter (`InfluxHandler.emit`),
the buffered emitter (`BufferingInfluxHandler.emit` / `flush`) and both
constructors.  Python dictionaries are modelled as insertion-ordered
association lists, Python floats (the record creation time) as exact
rationals, and raising Python code as `Except PyErr`.  The storage client
(`influxdb.InfluxDBClient`) is an external collaborator and is modelled as
an opaque `write_points` function; the lazy iterator handed to it by
`flush` is forced at the call, as any real client does when it serialises
the points.
-/

/-- Python exceptions that the embedded code can raise. -/
inductive PyErr where
  | keyError (key : String)
  | attributeError (name : String)
  | typeError (msg : String)
  deriving Repr, DecidableEq

/-- Scalar values stored in a log record attribute dictionary or in the
tag/field mappings of a point.  `Value.none` is Python `None`. -/
inductive Value where
  | none
  | str (s : String)
  | int (n : Int)
  | bool (b : Bool)
  deriving Repr, DecidableEq

/-- A Python dict with string keys, as an insertion-ordered association
list with unique keys. -/
abbrev Dict := List (String × Value)

/-- Assignment `d[k] = v`: replace the value in place if the key exists,
otherwise append the new entry at the end (Python dict semantics). -/
def dictSet : Dict → String → Value → Dict
  | [], k, v => [(k, v)]
  | p :: d, k, v => if p.1 = k then (k, v) :: d else p :: dictSet d k v

/-- Lookup `d[k]`, as an option. -/
def dictGet : Dict → String → Option Value
  | [], _ => Option.none
  | p :: d, k => if p.1 = k then Option.some p.2 else dictGet d k

/-- Lookup with a `None` default, used where the source indexes keys that
are known to be present. -/
def dictGetD (d : Dict) (k : String) : Value := (dictGet d k).getD Value.none

/-- Python `d.update(entries)`: assign each entry in order. -/
def dictUpdate (d : Dict) (entries : List (String × Value)) : Dict :=
  entries.foldl (fun d kv => dictSet d kv.1 kv.2) d

/-- Key list of a dict, in insertion order (`d.keys()`). -/
def dictKeys (d : Dict) : List String := d.map (fun p => p.1)

/-- Code-point comparison of character lists, the order Python uses to
compare strings. -/
def charsLe : List Char → List Char → Bool
  | [], _ => true
  | _ :: _, [] => false
  | a :: as, b :: bs =>
    if a.toNat < b.toNat then true
    else if b.toNat < a.toNat then false
    else charsLe as bs

/-- Python string `<=` (lexicographic on code points). -/
def strLe (a b : String) : Bool := charsLe a.toList b.toList

/-- Insert a string into an already sorted list. -/
def insertSorted (k : String) : List String → List String
  | [] => [k]
  | x :: xs => if strLe k x then k :: x :: xs else x :: insertSorted k xs

/-- Python `sorted`, by insertion sort. -/
def sortStrings : List String → List String
  | [] => []
  | k :: rest => insertSorted k (sortStrings rest)

/-- Helper for `pySplitChar`, accumulating the current chunk. -/
def splitCharAux (sep : Char) : List Char → List Char → List String
  | [], acc => [String.mk acc.reverse]
  | c :: cs, acc =>
    if c = sep then String.mk acc.reverse :: splitCharAux sep cs []
    else splitCharAux sep cs (c :: acc)

/-- Python `s.split(sep)` for a one-character separator; on the empty
string it yields `[""]`, as Python does. -/
def pySplitChar (sep : Char) (s : String) : List String := splitCharAux sep s.toList []

/-- Python `s.replace(old, new)` for one-character arguments. -/
def pyReplaceChar (old new : Char) (s : String) : String :=
  String.mk (s.toList.map (fun c => if c = old then new else c))

/-- Prefix test on character lists. -/
def charsStartWith : List Char → List Char → Bool
  | [], _ => true
  | _ :: _, [] => false
  | a :: as, b :: bs => a = b && charsStartWith as bs

/-- Python `s.startswith(pre)`. -/
def pyStartswith (s pre : String) : Bool := charsStartWith pre.toList s.toList

/-- Python `int()` applied to a (here: exact rational) number: truncation
toward zero. -/
def pyInt (q : Rat) : Int := if 0 ≤ q then ⌊q⌋ else -⌊-q⌋

/-- One step of `str.format` field substitution: the named fields of the
template are looked up among the keyword arguments; a named field with no
matching keyword argument raises `KeyError`, exactly as in Python, where
positional arguments never satisfy a named field.  The first argument is
fuel (callers pass the template length, an upper bound on the steps). -/
def pyFormatAux : Nat → List Char → List (String × String) → Except PyErr String
  | 0, _, _ => Except.ok ""
  | _ + 1, [], _ => Except.ok ""
  | fuel + 1, c :: rest, kwargs =>
    if c = '\x7b' then
      let nameCs := rest.takeWhile (fun d => d ≠ '\x7d')
      let rest2 := (rest.dropWhile (fun d => d ≠ '\x7d')).drop 1
      match kwargs.find? (fun kv => kv.1 = String.mk nameCs) with
      | Option.none => Except.error (PyErr.keyError (String.mk nameCs))
      | Option.some kv =>
        (pyFormatAux fuel rest2 kwargs).map (fun tail => kv.2 ++ tail)
    else
      (pyFormatAux fuel rest kwargs).map (fun tail => String.mk [c] ++ tail)

/-- Python `template.format(*posArgs, **kwargs)` for templates whose
fields are all named (the only shape appearing in the source): positional
arguments are accepted but can never be consumed by a named field. -/
def pyFormat (template : String) (_posArgs : List String)
    (kwargs : List (String × String)) : Except PyErr String :=
  pyFormatAux (template.toList.length + 1) template.toList kwargs

/-- The `SKIP_LIST` constant of `handler.py`: record attributes never
copied into the extra fields. -/
def SKIP_LIST : List String :=
  ["args", "asctime", "created", "exc_info", "exc_text", "filename",
   "funcName", "id", "levelname", "levelno", "lineno", "module",
   "msecs", "message", "msg", "name", "pathname", "process",
   "processName", "relativeCreated", "thread", "threadName"]

/-- The `SYSLOG_LEVELS` dictionary lookup `SYSLOG_LEVELS.get(levelno,
levelno)`: CRITICAL=50, ERROR=40, WARNING=30, INFO=20, DEBUG=10 map to
syslog severities, anything else falls through to itself. -/
def syslogLevel (levelno : Int) : Int :=
  if levelno = 50 then 2
  else if levelno = 40 then 3
  else if levelno = 30 then 4
  else if levelno = 20 then 6
  else if levelno = 10 then 7
  else levelno

/-- Python `logging.getLevelName` for the standard numeric levels, with
the `"Level %s"` fallback. -/
def getLevelName (levelno : Int) : String :=
  if levelno = 50 then "CRITICAL"
  else if levelno = 40 then "ERROR"
  else if levelno = 30 then "WARNING"
  else if levelno = 20 then "INFO"
  else if levelno = 10 then "DEBUG"
  else if levelno = 0 then "NOTSET"
  else "Level " ++ toString levelno

/-- Minimal model of `json.dumps` on a string: quote and escape. -/
def jsonEscapeChar (c : Char) : String :=
  if c = '"' then "\\\"" else if c = '\\' then "\\\\" else String.mk [c]

/-- JSON string literal for `jsonDumps`. -/
def jsonString (s : String) : String :=
  "\"" ++ String.join (s.toList.map jsonEscapeChar) ++ "\""

/-- Model of `json.dumps` applied to a list of strings, the only shape
the source serialises. -/
def jsonDumps (xs : List String) : String :=
  "[" ++ String.intercalate ", " (xs.map jsonString) ++ "]"

/-- A `logging.LogRecord` as consumed by the handler.  `message` is the
result of `record.getMessage()`; `exc_info`, when present, stands for the
exception triple and carries the lines `traceback.format_exception` would
produce for it; `created` is the fractional-second creation timestamp,
modelled as an exact rational; `attrs` is the attribute dictionary
`record.__dict__` as walked by `add_extra_fields`. -/
structure LogRecord where
  name : String
  levelno : Int
  message : String
  exc_info : Option (List String)
  created : Rat
  pathname : String
  lineno : Int
  funcName : String
  process : Option Int
  threadName : Option String
  processName : Option String
  attrs : List (String × Value)
  deriving Repr

/-- The configuration attributes `InfluxHandler.__init__` stores on the
handler instance (the storage client itself is external). -/
structure HandlerConfig where
  debugging_fields : Bool
  extra_fields : Bool
  localname : Option String
  measurement : Option String
  indexed_keys : List String
  backpop : Bool
  deriving Repr

/-- An InfluxDB point dictionary as built by `get_points`. -/
structure Point where
  measurement : String
  tags : Dict
  fields : Dict
  time : Int
  deriving Repr

/-- Python truthiness of the `measurement` attribute (`if
self.measurement:`): `None` and the empty string are falsy. -/
def measurementTruthy : Option String → Bool
  | Option.none => false
  | Option.some s => if s = "" then false else true

/-- Python `s or "root"`: the empty string is falsy. -/
def orRoot (s : String) : String := if s = "" then "root" else s

/-- The `get_full_message` helper of `handler.py`. -/
def get_full_message (exc_info : Option (List String)) (message : String) : String :=
  match exc_info with
  | Option.some tb => jsonDumps tb
  | Option.none => jsonDumps [message]

/-- The loop body of `add_extra_fields`: copy one attribute unless it is
in `SKIP_LIST` or starts with an underscore. -/
def extraFoldStep (d : Dict) (kv : String × Value) : Dict :=
  if kv.1 ∉ SKIP_LIST ∧ pyStartswith kv.1 "_" = false then dictSet d kv.1 kv.2 else d

/-- The `add_extra_fields` helper of `handler.py`: walk
`record.__dict__.items()` in order, assigning every non-skipped,
non-underscore attribute into the fields dict (later writes win). -/
def add_extra_fields (message_dict : Dict) (record : LogRecord) : Dict :=
  record.attrs.foldl extraFoldStep message_dict

/-- Wrapper for an `Option String` valued record attribute. -/
def optStr : Option String → Value
  | Option.some s => Value.str s
  | Option.none => Value.none

/-- Wrapper for an `Option Int` valued record attribute. -/
def optInt : Option Int → Value
  | Option.some n => Value.int n
  | Option.none => Value.none

/-- The fields dictionary built at the top of `get_points` (lines
103-124): the five core fields, then the debugging fields (plus
`_process_name` when `record.processName` exists), then, when
`extra_fields` is set, the extra record attributes. -/
def recordFields (self : HandlerConfig) (record : LogRecord) : Dict :=
  let fields : Dict :=
    [("host", optStr self.localname),
     ("short_message", Value.str record.message),
     ("full_message", Value.str (get_full_message record.exc_info record.message)),
     ("level", Value.int (syslogLevel record.levelno)),
     ("level_name", Value.str (getLevelName record.levelno))]
  let fields :=
    if self.debugging_fields then
      let fields := dictUpdate fields
        [("file", Value.str record.pathname),
         ("line", Value.int record.lineno),
         ("function", Value.str record.funcName),
         ("pid", optInt record.process),
         ("thread_name", optStr record.threadName)]
      match record.processName with
      | Option.some pn => dictSet fields "_process_name" (Value.str pn)
      | Option.none => fields
    else fields
  if self.extra_fields then add_extra_fields fields record else fields

/-- The comprehension `{k: fields[k] for k in sorted(fields.keys())}`. -/
def sortedFields (fields : Dict) : Dict :=
  (sortStrings (dictKeys fields)).map (fun k => (k, dictGetD fields k))

/-- The comprehension `{k: fields[k] for k in sorted(fields.keys()) if k
in self.indexed_keys}`. -/
def sortedTags (indexed_keys : List String) (fields : Dict) : Dict :=
  (sortStrings (dictKeys fields)).filterMap
    (fun k => if k ∈ indexed_keys then Option.some (k, dictGetD fields k) else Option.none)

/-- One point dictionary as `get_points` builds it: every branch builds
the same tags/fields/time from the shared fields dict, differing only in
the measurement name. -/
def mkPoint (self : HandlerConfig) (record : LogRecord) (fields : Dict)
    (m : String) : Point :=
  { measurement := m
    tags := sortedTags self.indexed_keys fields
    fields := sortedFields fields
    time := pyInt (record.created * 10 ^ 9) }

/-- The `for sub in names[1:]` loop of the backpop branch.  Each
iteration runs `rname = "{rname}:{sub}".format(rname, sub)` — the
template fields are named while the arguments are positional, so the
format call raises `KeyError` on its first named field. -/
def backpopLoop (self : HandlerConfig) (record : LogRecord) (fields : Dict) :
    String → List String → Except PyErr (List Point)
  | _, [] => Except.ok []
  | rname, sub :: rest =>
    (pyFormat "{rname}:{sub}" [rname, sub] []).bind
      (fun rname2 =>
        (backpopLoop self record fields rname2 rest).map
          (fun pts => mkPoint self record fields rname2 :: pts))

/-- The `InfluxHandler.get_points` converter (lines 102-158): build the
fields dict, then emit one point per resolved measurement name — the
override when it is truthy, the flattened name when `backpop` is off, and
otherwise the cumulative hierarchy fan-out. -/
def get_points (self : HandlerConfig) (record : LogRecord) :
    Except PyErr (List Point) :=
  let fields := recordFields self record
  if measurementTruthy self.measurement then
    Except.ok [mkPoint self record fields (self.measurement.getD "")]
  else if self.backpop = false then
    Except.ok [mkPoint self record fields (orRoot (pyReplaceChar '.' ':' record.name))]
  else
    let names := pySplitChar '.' record.name
    let rname := orRoot (names.headD "")
    (backpopLoop self record fields rname names.tail).map
      (fun pts => mkPoint self record fields rname :: pts)

/-- One item of the sequence handed to the storage client's batch write:
either a point dict or — the shape the buffered flush actually produces —
a whole list of point dicts. -/
inductive WriteItem where
  | point (p : Point)
  | pointList (ps : List Point)

/-- The storage client (an external collaborator): only its batch-write
entry point is relevant, with an arbitrary success-or-raise behaviour. -/
structure InfluxClient where
  write_points : List WriteItem → Except PyErr Unit

/-- Attribute lookup of a point-converter method on the handler: the only
converter either handler class (or its bases `logging.Handler` and
`logging.handlers.BufferingHandler`) defines is `get_points`; resolving
any other name — in particular the `get_point` that `emit` and `flush`
actually reference — raises `AttributeError`. -/
def convMethod (name : String) (self : HandlerConfig) (record : LogRecord) :
    Except PyErr (List Point) :=
  if name = "get_points" then get_points self record
  else Except.error (PyErr.attributeError name)

/-- `InfluxHandler.emit` (lines 94-100):
`self.client.write_points(self.get_point(record))` — the argument is
evaluated first, so the `get_point` lookup happens before the client is
reached. -/
def InfluxHandler.emit (self : HandlerConfig) (client : InfluxClient)
    (record : LogRecord) : Except PyErr Unit :=
  (convMethod "get_point" self record).bind
    (fun pts => client.write_points (pts.map WriteItem.point))

/-- The mutable state of a `BufferingInfluxHandler`: the record buffer. -/
structure BufferState where
  buffer : List LogRecord
  deriving Repr

/-- Forcing of `itertools.chain(self.get_point(record) for record in
self.buffer)`: `chain` receives the generator as its single iterable, so
it yields one item per buffered record — that record's point list — and
advancing the generator performs the `get_point` attribute lookup.  The
client forces the iterator when it serialises the write, so errors raised
by the forcing surface out of `write_points`. -/
def flushChain (self : HandlerConfig) (buffer : List LogRecord) :
    Except PyErr (List WriteItem) :=
  buffer.mapM
    (fun record => (convMethod "get_point" self record).map WriteItem.pointList)

/-- `BufferingInfluxHandler.flush` (lines 226-233): under the lock, if the
buffer is non-empty, write the chained conversions and then clear the
buffer.  The clear runs only after a successful write; the `finally`
clause merely releases the lock, so a raising write leaves the buffer in
place.  The lock itself is elided in this single-threaded model. -/
def BufferingInfluxHandler.flush (self : HandlerConfig) (client : InfluxClient)
    (st : BufferState) : Except PyErr Unit × BufferState :=
  if st.buffer.length ≠ 0 then
    match (flushChain self st.buffer).bind client.write_points with
    | Except.error e => (Except.error e, st)
    | Except.ok _ => (Except.ok (), { buffer := [] })
  else (Except.ok (), st)

/-- Result of one buffered emit: the outcome, the new state, and whether
this emit triggered a flush. -/
structure EmitStep where
  result : Except PyErr Unit
  state : BufferState
  flushCalled : Bool

/-- `logging.handlers.BufferingHandler.shouldFlush`: the buffer has
reached capacity. -/
def shouldFlush (capacity : Nat) (st : BufferState) : Bool :=
  st.buffer.length ≥ capacity

/-- `BufferingInfluxHandler.emit`, which delegates to
`BufferingHandler.emit`: append the record, then flush when the buffer
has reached capacity. -/
def BufferingInfluxHandler.emit (self : HandlerConfig) (client : InfluxClient)
    (capacity : Nat) (st : BufferState) (record : LogRecord) : EmitStep :=
  let st2 : BufferState := { buffer := st.buffer ++ [record] }
  if shouldFlush capacity st2 then
    let r := BufferingInfluxHandler.flush self client st2
    { result := r.1, state := r.2, flushCalled := true }
  else { result := Except.ok (), state := st2, flushCalled := false }

/-- Emit a list of records in order, counting how many of the emits
triggered a flush. -/
def emitMany (self : HandlerConfig) (client : InfluxClient) (capacity : Nat) :
    BufferState → List LogRecord → BufferState × Nat
  | st, [] => (st, 0)
  | st, r :: rs =>
    let step := BufferingInfluxHandler.emit self client capacity st r
    let next := emitMany self client capacity step.state rs
    (next.1, (if step.flushCalled then 1 else 0) + next.2)

/-- Python `set` defines neither `__iadd__` nor `__add__`, so the
statement `self.indexed_keys += set(indexed_keys)` raises `TypeError`. -/
def pySetIAdd (_a _b : List String) : Except PyErr (List String) :=
  Except.error (PyErr.typeError "unsupported operand type(s) for +=: set and set")

/-- `InfluxHandler.__init__` (lines 64-89), with the client construction
and the database existence check (external-collaborator calls) elided:
store the configuration with `indexed_keys = {level, short_message}`,
then merge the caller-supplied `indexed_keys` with `+=` — which raises
for any non-None argument. -/
def InfluxHandler.init (_database : String) (indexed_keys : Option (List String))
    (debugging_fields extra_fields : Bool) (localname measurement : Option String)
    (backpop : Bool) : Except PyErr HandlerConfig :=
  let self : HandlerConfig :=
    { debugging_fields := debugging_fields
      extra_fields := extra_fields
      localname := localname
      measurement := measurement
      indexed_keys := ["level", "short_message"]
      backpop := backpop }
  match indexed_keys with
  | Option.some ks =>
    (pySetIAdd self.indexed_keys ks).map
      (fun merged => { self with indexed_keys := merged })
  | Option.none => Except.ok self

/-- `BufferingInfluxHandler.__init__` (lines 188-216): its own
`indexed_keys += set(...)` merge (raising for any non-None argument) runs
before the delegated `InfluxHandler.__init__(indexed_keys=None, ...)`;
then `BufferingHandler.__init__(capacity)` installs the empty buffer and
`self._thread.start()` runs — `_thread` is `None` exactly when
`flush_interval` is `None`, making that call raise `AttributeError`.  The
`database` keyword travels to `InfluxHandler.__init__` inside
`client_kwargs`. -/
def BufferingInfluxHandler.init (database : String)
    (indexed_keys : Option (List String)) (debugging_fields extra_fields : Bool)
    (localname measurement : Option String) (capacity : Nat)
    (flush_interval : Option Rat) (backpop : Bool) :
    Except PyErr (HandlerConfig × BufferState × Nat) :=
  (match indexed_keys with
   | Option.some ks => (pySetIAdd ["level", "short_message"] ks).map (fun _ => ())
   | Option.none => Except.ok ()).bind
    (fun _ =>
      (InfluxHandler.init database Option.none debugging_fields extra_fields
          localname measurement backpop).bind
        (fun cfg =>
          match flush_interval with
          | Option.none => Except.error (PyErr.attributeError "start")
          | Option.some _ => Except.ok (cfg, { buffer := [] }, capacity)))

/-- A configuration with the constructor defaults: debugging and extra
fields on, no localname, no measurement override, backpop on, and the
indexed keys the constructor always ends up with. -/
def cfgDefault : HandlerConfig :=
  { debugging_fields := true
    extra_fields := true
    localname := Option.none
    measurement := Option.none
    indexed_keys := ["level", "short_message"]
    backpop := true }

/-- The default configuration with `backpop=False`. -/
def cfgNoBackpop : HandlerConfig := { cfgDefault with backpop := false }

/-- A concrete INFO record carrying the hierarchical logger name
`a.b.c` and the creation time 1700000000.123456 of the spec example. -/
def recABC : LogRecord :=
  { name := "a.b.c"
    levelno := 20
    message := "Info message"
    exc_info := Option.none
    created := (1700000000123456 : Rat) / 1000000
    pathname := "/tmp/app.py"
    lineno := 10
    funcName := "f"
    process := Option.some 123
    threadName := Option.some "MainThread"
    processName := Option.some "MainProcess"
    attrs := [] }

/-- The same record under the single-segment logger name `test`. -/
def recSingle : LogRecord := { recABC with name := "test" }

/-- A storage client whose write always succeeds. -/
def okClient : InfluxClient := { write_points := fun _ => Except.ok () }

/-- A storage client whose write always raises. -/
def failClient : InfluxClient :=
  { write_points := fun _ => Except.error (PyErr.typeError "connection refused") }

/-- Truthiness of an `Except` outcome: did the call return normally. -/
def exceptOk : Except PyErr Unit → Bool
  | Except.ok _ => true
  | Except.error _ => false

/-- The last value an attribute dictionary associates with a key, if any:
the value that survives a left-to-right walk in which later writes win. -/
def lastAttr : List (String × Value) → String → Option Value
  | [], _ => Option.none
  | kv :: rest, k =>
    match lastAttr rest k with
    | Option.some v => Option.some v
    | Option.none => if kv.1 = k then Option.some kv.2 else Option.none

/-- The point list the default handler produces for `recSingle`. -/
def ptsSingle : List Point := (get_points cfgDefault recSingle).toOption.getD []

/-- The single point the default handler produces for `recSingle`. -/
def pSingle : Point := ptsSingle.headD (mkPoint cfgDefault recSingle [] "")

/-- A configuration whose `localname` sets the core `host` field. -/
def cfgHost : HandlerConfig := { cfgDefault with localname := Option.some "original" }

/-- A record carrying an extra attribute named `host`, colliding with the
core `host` field. -/
def recHost : LogRecord := { recSingle with attrs := [("host", Value.str "overridden")] }

/-- The point list `cfgHost` produces for `recHost`. -/
def ptsHost : List Point := (get_points cfgHost recHost).toOption.getD []

/-- The single point `cfgHost` produces for `recHost`. -/
def pHost : Point := ptsHost.headD (mkPoint cfgHost recHost [] "")

/-- The configuration a default `InfluxHandler(database="db")` ends up
with. -/
def cfgFromInit : HandlerConfig :=
  (InfluxHandler.init "db" Option.none true true Option.none Option.none
      true).toOption.getD cfgDefault

/-- Looking up a key right after assigning it yields the assigned value. -/
theorem dictGet_dictSet_self (d : Dict) (k : String) (v : Value) :
    dictGet (dictSet d k v) k = Option.some v := by
  induction d with
  | nil => simp [dictSet, dictGet]
  | cons p d ih =>
    by_cases h : p.1 = k
    · simp [dictSet, dictGet, h]
    · simp [dictSet, dictGet, h, ih]

/-- Assigning one key leaves lookups of other keys unchanged. -/
theorem dictGet_dictSet_ne (d : Dict) (k2 k : String) (v : Value) (h : k2 ≠ k) :
    dictGet (dictSet d k2 v) k = dictGet d k := by
  induction d with
  | nil => simp [dictSet, dictGet, h]
  | cons p d ih =>
    by_cases hp : p.1 = k2
    · simp [dictSet, dictGet, hp, h]
    · simp [dictSet, dictGet, hp, ih]

/-- A fold of `extraFoldStep` over attributes that never mention a key
leaves that key's lookup unchanged. -/
theorem extraFold_untouched (attrs : List (String × Value)) (d : Dict) (k : String)
    (h : lastAttr attrs k = Option.none) :
    dictGet (attrs.foldl extraFoldStep d) k = dictGet d k := by
  induction attrs generalizing d with
  | nil => rfl
  | cons kv rest ih =>
    cases hr : lastAttr rest k with
    | some v => simp [lastAttr, hr] at h
    | none =>
      simp only [lastAttr, hr] at h
      by_cases hk1 : kv.1 = k
      · rw [if_pos hk1] at h; exact absurd h (by simp)
      · rw [List.foldl_cons, ih _ hr]
        unfold extraFoldStep
        split
        · exact dictGet_dictSet_ne d kv.1 k kv.2 hk1
        · rfl

/-- A fold of `extraFoldStep` writes the last value the attribute walk
assigns to a non-skipped, non-underscore key. -/
theorem extraFold_last (attrs : List (String × Value)) (d : Dict) (k : String)
    (v : Value) (hk : k ∉ SKIP_LIST) (hu : pyStartswith k "_" = false)
    (h : lastAttr attrs k = Option.some v) :
    dictGet (attrs.foldl extraFoldStep d) k = Option.some v := by
  induction attrs generalizing d with
  | nil => simp [lastAttr] at h
  | cons kv rest ih =>
    rw [List.foldl_cons]
    cases hr : lastAttr rest k with
    | some v2 =>
      simp only [lastAttr, hr, Option.some.injEq] at h
      subst h
      exact ih _ hr
    | none =>
      simp only [lastAttr, hr] at h
      by_cases hk1 : kv.1 = k
      · rw [if_pos hk1] at h
        rw [extraFold_untouched rest _ k hr]
        unfold extraFoldStep
        rw [if_pos]
        · rw [hk1, dictGet_dictSet_self]
          exact h
        · rw [hk1]; exact ⟨hk, hu⟩
      · rw [if_neg hk1] at h; exact absurd h (by simp)

/-- Lookup in a key-indexed map of a key list. -/
theorem dictGet_map_keys (l : List String) (g : String → Value) (k : String) :
    dictGet (l.map (fun x => (x, g x))) k =
      if k ∈ l then Option.some (g k) else Option.none := by
  induction l with
  | nil => simp [dictGet]
  | cons x l ih =>
    by_cases hx : x = k
    · subst hx; simp [dictGet]
    · have hx2 : ¬ (k = x) := fun hh => hx hh.symm
      simp [dictGet, hx, hx2, ih, List.mem_cons]

/-- Membership is preserved by sorted insertion. -/
theorem mem_insertSorted (x k : String) (l : List String) :
    x ∈ insertSorted k l ↔ x = k ∨ x ∈ l := by
  induction l with
  | nil => simp [insertSorted]
  | cons y l ih =>
    unfold insertSorted
    split
    · simp [List.mem_cons]
    · simp only [List.mem_cons, ih]
      tauto

/-- Sorting does not change the key set. -/
theorem mem_sortStrings (x : String) (l : List String) :
    x ∈ sortStrings l ↔ x ∈ l := by
  induction l with
  | nil => simp [sortStrings]
  | cons y l ih => simp [sortStrings, mem_insertSorted, ih, List.mem_cons]

/-- A key with a value is among the dict's keys. -/
theorem dictGet_mem_keys (d : Dict) (k : String) (v : Value)
    (h : dictGet d k = Option.some v) : k ∈ dictKeys d := by
  induction d with
  | nil => simp [dictGet] at h
  | cons p d ih =>
    by_cases hp : p.1 = k
    · simp [dictKeys, hp.symm, List.mem_cons]
    · simp only [dictGet, if_neg hp] at h
      exact List.mem_cons_of_mem _ (ih h)

/-- The sorted field projection preserves every lookup of the underlying
fields dict. -/
theorem dictGet_sortedFields (fields : Dict) (k : String) (v : Value)
    (h : dictGet fields k = Option.some v) :
    dictGet (sortedFields fields) k = Option.some v := by
  unfold sortedFields
  rw [dictGet_map_keys,
    if_pos ((mem_sortStrings k _).mpr (dictGet_mem_keys fields k v h))]
  unfold dictGetD
  rw [h]
  rfl

/-- Restricting a key list while mapping equals mapping then filtering on
the key. -/
theorem filterMap_restrict (l idx : List String) (g : String → Value) :
    l.filterMap
        (fun k => if k ∈ idx then Option.some (k, g k) else Option.none) =
      (l.map (fun k => (k, g k))).filter (fun kv => decide (kv.1 ∈ idx)) := by
  induction l with
  | nil => rfl
  | cons x l ih =>
    by_cases hx : x ∈ idx
    · simp [List.filterMap_cons, List.filter_cons, hx, ih]
    · simp [List.filterMap_cons, List.filter_cons, hx, ih]

/-- The tag comprehension is exactly the field comprehension filtered to
the indexed keys. -/
theorem sortedTags_eq_filter (idx : List String) (fields : Dict) :
    sortedTags idx fields =
      (sortedFields fields).filter (fun kv => decide (kv.1 ∈ idx)) :=
  filterMap_restrict _ idx _

/-- The backpop loop returns normally only on an empty tail (its format
call raises on the first iteration), and then contributes no points. -/
theorem backpopLoop_ok (self : HandlerConfig) (record : LogRecord) (fields : Dict)
    (rname : String) (l : List String) (pts : List Point)
    (h : backpopLoop self record fields rname l = Except.ok pts) : pts = [] := by
  cases l with
  | nil =>
    simp only [backpopLoop, Except.ok.injEq] at h
    exact h.symm
  | cons s rest =>
    have hf : pyFormat "{rname}:{sub}" [rname, s] [] =
        Except.error (PyErr.keyError "rname") := rfl
    simp only [backpopLoop, hf, Except.bind] at h
    exact absurd h (by simp)

/-- Every point `get_points` returns is `mkPoint` applied to the shared
fields dict and some measurement name. -/
theorem mem_get_points (self : HandlerConfig) (record : LogRecord)
    (pts : List Point) (p : Point)
    (hok : get_points self record = Except.ok pts) (hp : p ∈ pts) :
    ∃ m, p = mkPoint self record (recordFields self record) m := by
  simp only [get_points] at hok
  split at hok
  · rw [Except.ok.injEq] at hok
    subst hok
    exact ⟨_, List.mem_singleton.mp hp⟩
  · split at hok
    · rw [Except.ok.injEq] at hok
      subst hok
      exact ⟨_, List.mem_singleton.mp hp⟩
    · cases hb : backpopLoop self record (recordFields self record)
          (orRoot ((pySplitChar '.' record.name).headD ""))
          (pySplitChar '.' record.name).tail with
      | error e => rw [hb] at hok; simp [Except.map] at hok
      | ok pts2 =>
        rw [hb] at hok
        have h2 : pts2 = [] := backpopLoop_ok _ _ _ _ _ _ hb
        subst h2
        simp only [Except.map, Except.ok.injEq] at hok
        subst hok
        exact ⟨_, List.mem_singleton.mp hp⟩

/-- C1: the claim says a record named `a.b.c` with `backpop` on and no
override yields the three measurements `a`, `a:b`, `a:b:c`, and with
`backpop` off the single measurement `a:b:c`.  On the code, the backpop
loop's `"{rname}:{sub}".format(rname, sub)` passes positional arguments
to named placeholders and raises `KeyError("rname")` on the first
sub-segment, so the fan-out half fails; the `backpop=false` half does
produce exactly one point named `a:b:c`. -/
theorem c1_fanout_eval :
    get_points cfgDefault recABC = Except.error (PyErr.keyError "rname") ∧
    (get_points cfgNoBackpop recABC).map (fun pts => pts.map Point.measurement) =
      Except.ok ["a:b:c"] :=
  ⟨rfl, rfl⟩

/-- C2, counterexample: with one buffered record and a write that raises,
`flush` propagates the error but the buffer is NOT cleared — refuting the
claim that a failed write still clears the buffer (and that a subsequent
flush would be a no-op).  In the code the clear `self.buffer = []` sits
after the write call on the success path, and the `finally` only releases
the lock. -/
theorem c2_counterexample :
    BufferingInfluxHandler.flush cfgDefault failClient { buffer := [recABC] } =
      (Except.error (PyErr.attributeError "get_point"), { buffer := [recABC] }) ∧
    [recABC] ≠ ([] : List LogRecord) :=
  ⟨rfl, List.cons_ne_nil _ _⟩

/-- C2, amended: a raising write inside `flush()` propagates the error and
leaves the buffer unchanged; the buffer is cleared exactly when the write
returns normally. -/
theorem c2_flush_clears_only_on_success (self : HandlerConfig)
    (client : InfluxClient) (st : BufferState) :
    (BufferingInfluxHandler.flush self client st).2 =
      if exceptOk (BufferingInfluxHandler.flush self client st).1 then { buffer := [] }
      else st := by
  unfold BufferingInfluxHandler.flush
  split
  · cases (flushChain self st.buffer).bind client.write_points with
    | error e => rfl
    | ok u => rfl
  · next h =>
    obtain ⟨buf⟩ := st
    simp only [ne_eq, not_not, List.length_eq_zero] at h
    subst h
    rfl

/-- C3: the claim says `InfluxHandler.emit` converts the record and
forwards the points to the client, mirroring the client's outcome.  The
code calls `self.get_point(record)` — a method that does not exist (the
converter is `get_points`) — so every emit raises `AttributeError` before
the client is ever reached; the repository's own test expects the points
to be written. -/
theorem c3_emit_attribute_error (self : HandlerConfig) (client : InfluxClient)
    (record : LogRecord) :
    InfluxHandler.emit self client record =
      Except.error (PyErr.attributeError "get_point") := rfl

/-- C4: the claim says a flush of a non-empty buffer hands the client the
flat FIFO concatenation of all point lists and clears the buffer.  The
code's generator references the nonexistent `get_point`, so forcing the
chain raises `AttributeError` out of the write and the buffer stays in
place (and even with the name fixed, `itertools.chain` applied to the
generator as a single argument would yield per-record lists, not
flattened points). -/
theorem c4_flush_eval :
    BufferingInfluxHandler.flush cfgDefault okClient { buffer := [recABC, recSingle] } =
      (Except.error (PyErr.attributeError "get_point"), { buffer := [recABC, recSingle] }) :=
  rfl

/-- C5, counterexample: the claim says tag and field key sets of a point
are disjoint.  For a concrete record the single produced point carries
both `level` and `short_message` in its tags AND in its fields, so the
key sets intersect. -/
theorem c5_counterexample :
    get_points cfgDefault recSingle = Except.ok [pSingle] ∧
    ("level", Value.int 6) ∈ pSingle.tags ∧
    ("level", Value.int 6) ∈ pSingle.fields ∧
    ("short_message", Value.str "Info message") ∈ pSingle.tags ∧
    ("short_message", Value.str "Info message") ∈ pSingle.fields :=
  ⟨rfl, by decide, by decide, by decide, by decide⟩

/-- C5, amended: instead of being disjoint from the fields, every tag
entry of a produced point is also a field entry of the same point (the
tags are the restriction of the fields to the indexed keys). -/
theorem c5_tags_sub_fields (self : HandlerConfig) (record : LogRecord)
    (pts : List Point) (p : Point) (kv : String × Value)
    (hok : get_points self record = Except.ok pts) (hp : p ∈ pts)
    (hkv : kv ∈ p.tags) : kv ∈ p.fields := by
  obtain ⟨m, rfl⟩ := mem_get_points self record pts p hok hp
  have hkv2 : kv ∈ sortedTags self.indexed_keys (recordFields self record) := hkv
  rw [sortedTags_eq_filter] at hkv2
  exact (List.mem_filter.mp hkv2).1

/-- C5, witness: the amended statement at the concrete point. -/
theorem c5_witness : ("level", Value.int 6) ∈ pSingle.fields :=
  c5_tags_sub_fields cfgDefault recSingle ptsSingle pSingle ("level", Value.int 6) rfl
    (List.mem_singleton_self pSingle) (by decide)

/-- C6: the claim says the 63rd emit triggers no flush, the 64th triggers
exactly one flush that empties the buffer, and the buffer never exceeds
capacity.  On the code, 63 emits indeed trigger zero flushes and the 64th
exactly one, but that flush raises `AttributeError` (`get_point` is
undefined) and leaves all 64 records buffered, so a 65th emit leaves the
buffer above capacity — while the repository's tests expect the 64-point
write to happen. -/
theorem c6_capacity_eval :
    (emitMany cfgDefault okClient 64 { buffer := [] } (List.replicate 63 recABC)).2 = 0 ∧
    (emitMany cfgDefault okClient 64 { buffer := [] }
        (List.replicate 63 recABC)).1.buffer.length = 63 ∧
    (emitMany cfgDefault okClient 64 { buffer := [] } (List.replicate 64 recABC)).2 = 1 ∧
    (BufferingInfluxHandler.emit cfgDefault okClient 64
        { buffer := List.replicate 63 recABC } recABC).result =
      Except.error (PyErr.attributeError "get_point") ∧
    (emitMany cfgDefault okClient 64 { buffer := [] }
        (List.replicate 64 recABC)).1.buffer.length = 64 ∧
    (emitMany cfgDefault okClient 64 { buffer := [] }
        (List.replicate 65 recABC)).1.buffer.length = 65 := by
  refine ⟨?_, ?_, ?_, rfl, ?_, ?_⟩ <;> · set_option maxRecDepth 8192 in decide

/-- C7: every produced point's timestamp is the creation time multiplied
by 10^9 and truncated toward zero; in particular a creation time of
1700000000.123456 seconds yields 1700000000123456000 nanoseconds, and a
value with fractional part above one half (1.9 nanoseconds) is truncated
down to 1, not rounded to 2.  Creation time is modelled as an exact
rational. -/
theorem c7_timestamp (self : HandlerConfig) (record : LogRecord)
    (pts : List Point) (p : Point)
    (hok : get_points self record = Except.ok pts) (hp : p ∈ pts) :
    p.time = pyInt (record.created * 10 ^ 9) ∧
    pyInt ((1700000000123456 : Rat) / 1000000 * 10 ^ 9) = 1700000000123456000 ∧
    pyInt ((19 : Rat) / 10000000000 * 10 ^ 9) = 1 := by
  refine ⟨?_, ?_, ?_⟩
  · obtain ⟨m, rfl⟩ := mem_get_points self record pts p hok hp
    rfl
  · rw [show (1700000000123456 : Rat) / 1000000 * 10 ^ 9 =
        ((1700000000123456000 : Int) : Rat) by norm_num]
    rw [pyInt, if_pos (by norm_num)]
    norm_num
  · rw [show (19 : Rat) / 10000000000 * 10 ^ 9 = (19 / 10 : Rat) by norm_num]
    rw [pyInt, if_pos (by norm_num)]
    norm_num

/-- C7, witness: the timestamp statement at the concrete point. -/
theorem c7_witness :
    pSingle.time = pyInt (recSingle.created * 10 ^ 9) ∧
    pyInt ((1700000000123456 : Rat) / 1000000 * 10 ^ 9) = 1700000000123456000 ∧
    pyInt ((19 : Rat) / 10000000000 * 10 ^ 9) = 1 :=
  c7_timestamp cfgDefault recSingle ptsSingle pSingle rfl (List.mem_singleton_self pSingle)

/-- C8: in every produced point the tags mapping is exactly the
restriction of the fields mapping to the indexed keys, so every tag key
is also a field key with the identical value. -/
theorem c8_tags_are_field_restriction (self : HandlerConfig) (record : LogRecord)
    (pts : List Point) (p : Point)
    (hok : get_points self record = Except.ok pts) (hp : p ∈ pts) :
    p.tags = p.fields.filter (fun kv => decide (kv.1 ∈ self.indexed_keys)) := by
  obtain ⟨m, rfl⟩ := mem_get_points self record pts p hok hp
  exact sortedTags_eq_filter self.indexed_keys (recordFields self record)

/-- C8, witness: the restriction statement at the concrete point. -/
theorem c8_witness :
    pSingle.tags = pSingle.fields.filter (fun kv => decide (kv.1 ∈ cfgDefault.indexed_keys)) :=
  c8_tags_are_field_restriction cfgDefault recSingle ptsSingle pSingle rfl
    (List.mem_singleton_self pSingle)

/-- C9: with `extra_fields` on, every record attribute outside the skip
list and not underscore-prefixed is written into the fields dict after
the core fields, so the value that ends up in the produced point under
that key is the (last) attribute value — in particular an attribute named
`host`, `level`, `short_message`, `full_message` or `level_name`
overwrites the corresponding core field. -/
theorem c9_extra_overwrite (self : HandlerConfig) (record : LogRecord)
    (k : String) (v : Value) (pts : List Point) (p : Point)
    (hx : self.extra_fields = true)
    (hk : k ∉ SKIP_LIST) (hu : pyStartswith k "_" = false)
    (hl : lastAttr record.attrs k = Option.some v)
    (hok : get_points self record = Except.ok pts) (hp : p ∈ pts) :
    dictGet p.fields k = Option.some v := by
  obtain ⟨m, rfl⟩ := mem_get_points self record pts p hok hp
  have hF : dictGet (recordFields self record) k = Option.some v := by
    simp only [recordFields]
    rw [if_pos hx]
    exact extraFold_last record.attrs _ k v hk hu hl
  exact dictGet_sortedFields _ k v hF

/-- C9, witness: a record attribute named `host` overwrites the core
`host` field (set from `localname = "original"`) in the produced point. -/
theorem c9_witness : dictGet pHost.fields "host" = Option.some (Value.str "overridden") :=
  c9_extra_overwrite cfgHost recHost "host" (Value.str "overridden") ptsHost pHost rfl
    (by decide) rfl rfl rfl (List.mem_singleton_self pHost)

/-- C10: constructing either handler with a non-None `indexed_keys`
always raises (`set` supports `|=` but not the `+=` the code uses), and
every successfully constructed handler has exactly
`{level, short_message}` as its indexed keys. -/
theorem c10_init_indexed_keys (db : String) (ks : List String) (dbg ext : Bool)
    (loc meas : Option String) (cap : Nat) (fi : Option Rat) (bp : Bool) :
    InfluxHandler.init db (Option.some ks) dbg ext loc meas bp =
      Except.error (PyErr.typeError "unsupported operand type(s) for +=: set and set") ∧
    BufferingInfluxHandler.init db (Option.some ks) dbg ext loc meas cap fi bp =
      Except.error (PyErr.typeError "unsupported operand type(s) for +=: set and set") ∧
    (∀ cfg, InfluxHandler.init db Option.none dbg ext loc meas bp = Except.ok cfg →
      cfg.indexed_keys = ["level", "short_message"]) ∧
    (∀ out, BufferingInfluxHandler.init db Option.none dbg ext loc meas cap fi bp =
        Except.ok out → out.1.indexed_keys = ["level", "short_message"]) := by
  refine ⟨rfl, rfl, ?_, ?_⟩
  · intro cfg h
    simp only [InfluxHandler.init, Except.ok.injEq] at h
    rw [← h]
  · intro out h
    cases fi with
    | none =>
      simp [BufferingInfluxHandler.init, InfluxHandler.init, Except.bind] at h
    | some fiv =>
      simp only [BufferingInfluxHandler.init, InfluxHandler.init, Except.bind,
        Except.ok.injEq] at h
      rw [← h]

/-- C10, witness: the constructor behaviour at concrete arguments. -/
theorem c10_witness :
    InfluxHandler.init "db" (Option.some ["host"]) true true Option.none Option.none true =
      Except.error (PyErr.typeError "unsupported operand type(s) for +=: set and set") ∧
    cfgFromInit.indexed_keys = ["level", "short_message"] :=
  ⟨(c10_init_indexed_keys "db" ["host"] true true Option.none Option.none 64
      (Option.some 5) true).1,
   (c10_init_indexed_keys "db" ["host"] true true Option.none Option.none 64
      (Option.some 5) true).2.2.1 cfgFromInit rfl⟩
